import Mathlib

/-!
Shallow embedding of the Asteroids game (public/game.js, src/ui/Minimap.js and
the UIManager code listed in RELEASE_NOTES.md) and proofs of the spec claims.

Conventions of the embedding:
* JavaScript numbers are modelled as exact rationals (ℚ).
* `Math.cos` / `Math.sin` / `Math.sqrt` are transcendental; they are modelled by
  an `Oracles` record of functions, constrained by hypotheses (e.g. that the
  sqrt oracle squares back to its argument) exactly where a proof needs the
  mathematical property of the real function.
* Comparisons of the form `Math.sqrt d2 < r` in the source are embedded as the
  equivalent `d2 < r * r` (both sides are nonnegative in every call site, and
  squaring is monotone on nonnegatives), keeping the definitions executable.
* `Math.random()` draws are modelled as explicit parameters: an `AstRand`
  record for the random fields of a freshly constructed asteroid, and candidate
  position streams for the rejection-sampling loop of `spawnAsteroids`.
  The render-only random vertex polygon of an asteroid is not modelled.
-/

namespace AsteroidsGame

/-- game.js `class Vector2D`: a 2D vector with rational coordinates. -/
structure Vector2D where
  x : ℚ
  y : ℚ
deriving DecidableEq, Repr

/-- game.js `Vector2D.add`. -/
def Vector2D.add (v w : Vector2D) : Vector2D := ⟨v.x + w.x, v.y + w.y⟩

/-- game.js `Vector2D.multiply`. -/
def Vector2D.multiply (v : Vector2D) (s : ℚ) : Vector2D := ⟨v.x * s, v.y * s⟩

/-- Squared magnitude of a vector; game.js `Vector2D.magnitude` is
`Math.sqrt` of this, obtained through the sqrt oracle where needed. -/
def Vector2D.mag2 (v : Vector2D) : ℚ := v.x * v.x + v.y * v.y

/-- Oracles for the transcendental library functions used by game.js. -/
structure Oracles where
  cos : ℚ → ℚ
  sin : ℚ → ℚ
  sqrt : ℚ → ℚ

/-- game.js `GameObject.wrapPosition`: the four `if` statements executed in
order, each reading the value left by the previous one. -/
def wrapPosition (cw ch : ℚ) (p : Vector2D) : Vector2D :=
  let x1 := if p.x < 0 then cw else p.x
  let x2 := if x1 > cw then 0 else x1
  let y1 := if p.y < 0 then ch else p.y
  let y2 := if y1 > ch then 0 else y1
  ⟨x2, y2⟩

/-- game.js `GameObject.update`: integrate velocity, then wrap.  This is the
position part shared by every entity's `update`. -/
def moveWrap (cw ch dt : ℚ) (pos vel : Vector2D) : Vector2D :=
  wrapPosition cw ch (pos.add (vel.multiply dt))

/-- game.js `GameObject.checkCollision`:
`Math.sqrt(dx*dx + dy*dy) < r1 + r2`, embedded squared (radii are positive). -/
def collides (p1 : Vector2D) (r1 : ℚ) (p2 : Vector2D) (r2 : ℚ) : Bool :=
  let dx := p1.x - p2.x
  let dy := p1.y - p2.y
  decide (dx * dx + dy * dy < (r1 + r2) * (r1 + r2))

/-- Squared Euclidean distance between two points. -/
def dist2 (p q : Vector2D) : ℚ :=
  (p.x - q.x) * (p.x - q.x) + (p.y - q.y) * (p.y - q.y)

/-- game.js `class Ship` state. -/
structure Ship where
  position : Vector2D
  velocity : Vector2D
  rotation : ℚ
  radius : ℚ
  invulnerable : Bool
  invulnerableTime : ℚ
deriving DecidableEq, Repr

/-- game.js `this.thrustPower = 300` (constant on every ship). -/
def Ship.thrustPower : ℚ := 300

/-- game.js `this.rotationSpeed = 5` (constant on every ship). -/
def Ship.rotationSpeed : ℚ := 5

/-- game.js `this.maxSpeed = 400` (constant on every ship). -/
def Ship.maxSpeed : ℚ := 400

/-- The velocity after adding the thrust vector, before the speed clamp
(game.js `Ship.thrust` up to the `speed` check). -/
def Ship.thrustVel (o : Oracles) (forward : Bool) (dt : ℚ) (s : Ship) : Vector2D :=
  let direction : Vector2D := ⟨o.cos s.rotation, o.sin s.rotation⟩
  s.velocity.add (direction.multiply (Ship.thrustPower * dt * (if forward then 1 else -(1/2))))

/-- game.js `Ship.thrust`: add the thrust vector, then clamp the speed to
`maxSpeed` when it exceeds it. -/
def Ship.thrust (o : Oracles) (forward : Bool) (dt : ℚ) (s : Ship) : Ship :=
  let v1 := s.thrustVel o forward dt
  let speed := o.sqrt v1.mag2
  if speed > Ship.maxSpeed then
    { s with velocity := v1.multiply (Ship.maxSpeed / speed) }
  else
    { s with velocity := v1 }

/-- game.js `Ship.rotate`. -/
def Ship.rotate (dir dt : ℚ) (s : Ship) : Ship :=
  { s with rotation := s.rotation + dir * Ship.rotationSpeed * dt }

/-- game.js `Ship.update`: move and wrap, damp the velocity by 0.99, then run
the invulnerability timer. -/
def Ship.update (cw ch dt : ℚ) (s : Ship) : Ship :=
  let s1 := { s with position := moveWrap cw ch dt s.position s.velocity }
  let s2 := { s1 with velocity := s1.velocity.multiply (99/100) }
  if s2.invulnerable then
    let t := s2.invulnerableTime - dt
    if t ≤ 0 then { s2 with invulnerableTime := t, invulnerable := false }
    else { s2 with invulnerableTime := t }
  else s2

/-- game.js `Ship.respawn`. -/
def Ship.respawn (x y : ℚ) (s : Ship) : Ship :=
  { s with position := ⟨x, y⟩, velocity := ⟨0, 0⟩, rotation := 0,
           invulnerable := true, invulnerableTime := 3 }

/-- game.js `class Bullet` state. -/
structure Bullet where
  position : Vector2D
  velocity : Vector2D
  radius : ℚ
  lifetime : ℚ
  active : Bool
deriving DecidableEq, Repr

/-- game.js `this.speed = 600` (constant on every bullet). -/
def Bullet.speed : ℚ := 600

/-- game.js `new Bullet(x, y, rotation)`. -/
def mkBullet (o : Oracles) (x y rotation : ℚ) : Bullet :=
  { position := ⟨x, y⟩,
    velocity := (Vector2D.mk (o.cos rotation) (o.sin rotation)).multiply Bullet.speed,
    radius := 2, lifetime := 3/2, active := true }

/-- game.js `Bullet.update`: move and wrap, tick the lifetime, deactivate on
expiry. -/
def Bullet.update (cw ch dt : ℚ) (b : Bullet) : Bullet :=
  let b1 := { b with position := moveWrap cw ch dt b.position b.velocity }
  let lt := b1.lifetime - dt
  { b1 with lifetime := lt, active := if lt ≤ 0 then false else b1.active }

/-- The three asteroid size strings of game.js. -/
inductive Size where
  | small
  | medium
  | large
deriving DecidableEq, Repr

/-- game.js asteroid radius: `size === 'large' ? 40 : size === 'medium' ? 25 : 15`. -/
def Size.radius : Size → ℚ
  | Size.large => 40
  | Size.medium => 25
  | Size.small => 15

/-- game.js asteroid speed: `size === 'large' ? 50 : size === 'medium' ? 80 : 120`. -/
def Size.speed : Size → ℚ
  | Size.large => 50
  | Size.medium => 80
  | Size.small => 120

/-- The `Math.random()` draws consumed by the `Asteroid` constructor
(initial rotation, rotation speed, and the cos/sin of the velocity angle). -/
structure AstRand where
  rotation : ℚ
  rotationSpeed : ℚ
  dirCos : ℚ
  dirSin : ℚ
deriving DecidableEq, Repr

/-- game.js `class Asteroid` state (the render-only vertex polygon is not
modelled). -/
structure Asteroid where
  position : Vector2D
  velocity : Vector2D
  rotation : ℚ
  rotationSpeed : ℚ
  size : Size
  radius : ℚ
  active : Bool
deriving DecidableEq, Repr

/-- game.js `new Asteroid(x, y, size)` with the random draws `r`. -/
def mkAsteroid (x y : ℚ) (size : Size) (r : AstRand) : Asteroid :=
  { position := ⟨x, y⟩,
    velocity := ⟨r.dirCos * size.speed, r.dirSin * size.speed⟩,
    rotation := r.rotation, rotationSpeed := r.rotationSpeed,
    size := size, radius := size.radius, active := true }

/-- game.js `Asteroid.update`: move and wrap, then spin. -/
def Asteroid.update (cw ch dt : ℚ) (a : Asteroid) : Asteroid :=
  let a1 := { a with position := moveWrap cw ch dt a.position a.velocity }
  { a1 with rotation := a1.rotation + a1.rotationSpeed * dt }

/-- game.js `Asteroid.split`: nothing for a small asteroid, otherwise two new
asteroids of the next smaller size at this asteroid's position (`r1`, `r2` are
the random draws of the two constructor calls). -/
def Asteroid.split (a : Asteroid) (r1 r2 : AstRand) : List Asteroid :=
  if a.size = Size.small then []
  else
    let newSize := if a.size = Size.large then Size.medium else Size.small
    [mkAsteroid a.position.x a.position.y newSize r1,
     mkAsteroid a.position.x a.position.y newSize r2]

/-- game.js `Game.checkCollisions` score increment:
`asteroid.size === 'large' ? 20 : asteroid.size === 'medium' ? 50 : 100`. -/
def scorePoints : Size → ℕ
  | Size.large => 20
  | Size.medium => 50
  | Size.small => 100

/-- The inner loop of game.js `Game.checkCollisions` for one bullet: scan the
asteroid list downward from index `fuel - 1` (called with `fuel = length`, as
the source starts at `asteroids.length - 1`) and return the first colliding
index together with the asteroid found there. -/
def scanHit (b : Bullet) (asts : List Asteroid) : ℕ → Option (ℕ × Asteroid)
  | 0 => none
  | j + 1 =>
    match asts[j]? with
    | some a =>
      if collides b.position b.radius a.position a.radius then some (j, a)
      else scanHit b asts j
    | none => scanHit b asts j

/-- The effect of one bullet on the asteroid list in game.js
`Game.checkCollisions`: `none` when the bullet hits nothing; otherwise the
asteroid list after `splice(j, 1)` and `push(...asteroid.split())`, together
with the score increment.  `r1`, `r2` are the random draws of the two
asteroids that `split` may construct. -/
def processBullet (r1 r2 : AstRand) (b : Bullet) (asts : List Asteroid) :
    Option (List Asteroid × ℕ) :=
  (scanHit b asts asts.length).map
    (fun ja => (asts.eraseIdx ja.1 ++ ja.2.split r1 r2, scorePoints ja.2.size))

/-- The bullet loop of game.js `Game.checkCollisions`.  The source iterates
`i` downward, so the bullet at the list's tail end is processed first; the
recursion therefore processes `rest` (the higher indices relative to the later
elements... ) bottom-up: the recursive call handles all later bullets against
the current asteroid list, then the head bullet runs against the result.  A
bullet that hits is dropped (`bullets.splice(i, 1)`), one that misses is kept.
`supply n` provides the split's random draws for the bullet at recursion
depth `n`. -/
def bulletPhase (supply : ℕ → AstRand × AstRand) :
    List Bullet → List Asteroid → ℕ → List Bullet × List Asteroid × ℕ
  | [], asts, score => ([], asts, score)
  | b :: rest, asts, score =>
    let r := bulletPhase (fun n => supply (n + 1)) rest asts score
    match processBullet (supply 0).1 (supply 0).2 b r.2.1 with
    | none => (b :: r.1, r.2.1, r.2.2)
    | some hit => (r.1, hit.1, r.2.2 + hit.2)

/-- The ship block of game.js `Game.checkCollisions`: skipped entirely while
the ship is invulnerable; otherwise the first colliding asteroid (in list
order, `for...of` with `break`) costs a life, ending the game at `lives <= 0`
and respawning the ship at the canvas centre otherwise. -/
def shipPhase (cw ch : ℚ) (ship : Ship) (lives : ℤ) (gameOver : Bool)
    (asts : List Asteroid) : Ship × ℤ × Bool :=
  if ship.invulnerable then (ship, lives, gameOver)
  else
    match asts.find? (fun a => collides ship.position ship.radius a.position a.radius) with
    | none => (ship, lives, gameOver)
    | some _ =>
      let lives1 := lives - 1
      if lives1 ≤ 0 then (ship, lives1, true)
      else (ship.respawn (cw / 2) (ch / 2), lives1, gameOver)

/-- The pressed-key flags read by game.js `Game.handleInput` (`this.keys`). -/
structure Keys where
  w : Bool
  a : Bool
  s : Bool
  d : Bool
  space : Bool
deriving DecidableEq, Repr

/-- `this.keys[key] = v` for a lowercased key string; keys the game logic
never reads (such as `'r'`, which is handled in the keydown listener itself)
leave the record unchanged. -/
def Keys.set (k : Keys) (key : String) (v : Bool) : Keys :=
  if key = "w" then { k with w := v }
  else if key = "a" then { k with a := v }
  else if key = "s" then { k with s := v }
  else if key = "d" then { k with d := v }
  else if key = " " then { k with space := v }
  else k

/-- game.js `class Game` state (DOM and rendering fields are not modelled). -/
structure Game where
  ship : Ship
  bullets : List Bullet
  asteroids : List Asteroid
  score : ℕ
  lives : ℤ
  gameOver : Bool
  canShoot : Bool
  shootCooldown : ℚ
  keys : Keys
deriving DecidableEq, Repr

/-- game.js `Game.shoot`: push a new bullet at the ship's position/rotation. -/
def Game.shoot (o : Oracles) (g : Game) : Game :=
  { g with bullets := g.bullets ++ [mkBullet o g.ship.position.x g.ship.position.y g.ship.rotation] }

/-- game.js `Game.handleInput`: early return on game over, then the WASD
thrust/rotation branches, the shoot branch, and the cooldown logic, in source
order. -/
def Game.handleInput (o : Oracles) (dt : ℚ) (g : Game) : Game :=
  if g.gameOver then g
  else
    let g1 := if g.keys.w then { g with ship := g.ship.thrust o true dt } else g
    let g2 := if g1.keys.s then { g1 with ship := g1.ship.thrust o false dt } else g1
    let g3 := if g2.keys.a then { g2 with ship := g2.ship.rotate (-1) dt } else g2
    let g4 := if g3.keys.d then { g3 with ship := g3.ship.rotate 1 dt } else g3
    let g5 := if g4.keys.space && g4.canShoot then
                { g4.shoot o with canShoot := false, shootCooldown := 1/4 }
              else g4
    let g6 := if !g5.keys.space then { g5 with canShoot := true } else g5
    if g6.shootCooldown > 0 then
      let cd := g6.shootCooldown - dt
      if cd ≤ 0 then { g6 with shootCooldown := cd, canShoot := true }
      else { g6 with shootCooldown := cd }
    else g6

/-- game.js `Game.checkCollisions`: the bullet loop, then the ship block. -/
def Game.checkCollisions (cw ch : ℚ) (supply : ℕ → AstRand × AstRand) (g : Game) : Game :=
  let br := bulletPhase supply g.bullets g.asteroids g.score
  let sr := shipPhase cw ch g.ship g.lives g.gameOver br.2.1
  { g with bullets := br.1, asteroids := br.2.1, score := br.2.2,
           ship := sr.1, lives := sr.2.1, gameOver := sr.2.2 }

/-- The rejection loop of game.js `Game.spawnAsteroids`: keep drawing random
positions until one is at (Euclidean) distance ≥ 150 from the ship, i.e. the
first candidate whose squared distance is not `< 150²`.  `none` models the
do-while never terminating on the given draw stream. -/
def pickSpawnPos (shipPos : Vector2D) (cands : List Vector2D) : Option Vector2D :=
  cands.find? (fun p => !decide (dist2 p shipPos < 150 * 150))

/-- The `for` loop of game.js `Game.spawnAsteroids`, from iteration `i`, with
`fuel` iterations left: each iteration draws a position (candidate stream
`cands i`) and pushes a large asteroid there (random draws `rs i`). -/
def spawnFrom (shipPos : Vector2D) (cands : ℕ → List Vector2D) (rs : ℕ → AstRand)
    (i : ℕ) : ℕ → Option (List Asteroid)
  | 0 => some []
  | fuel + 1 =>
    match pickSpawnPos shipPos (cands i) with
    | none => none
    | some p =>
      match spawnFrom shipPos cands rs (i + 1) fuel with
      | none => none
      | some rest => some (mkAsteroid p.x p.y Size.large (rs i) :: rest)

/-- game.js `Game.spawnAsteroids(count)` relative to the ship position. -/
def Game.spawnAsteroids (shipPos : Vector2D) (count : ℕ) (cands : ℕ → List Vector2D)
    (rs : ℕ → AstRand) : Option (List Asteroid) :=
  spawnFrom shipPos cands rs 0 count

/-- The wave size used by game.js `Game.update`:
`Math.min(7, 5 + Math.floor(this.score / 1000))`. -/
def waveCount (score : ℕ) : ℕ := min 7 (5 + score / 1000)

/-- The tail of game.js `Game.update`: when the asteroid list has become
empty, spawn a new wave of `waveCount` asteroids. -/
def Game.respawnWave (cands : ℕ → List Vector2D) (rs : ℕ → AstRand) (g : Game) :
    Option Game :=
  if g.asteroids.isEmpty then
    (Game.spawnAsteroids g.ship.position (waveCount g.score) cands rs).map
      (fun l => { g with asteroids := l })
  else some g

/-- game.js `Game.update`: early return on game over, then input handling,
entity updates (bullets are updated and filtered on `active`), collision
checks, and the wave respawn. -/
def Game.update (o : Oracles) (cw ch dt : ℚ) (supply : ℕ → AstRand × AstRand)
    (cands : ℕ → List Vector2D) (rs : ℕ → AstRand) (g : Game) : Option Game :=
  if g.gameOver then some g
  else
    let g1 := g.handleInput o dt
    let g2 := { g1 with ship := g1.ship.update cw ch dt }
    let bs := (g2.bullets.map (Bullet.update cw ch dt)).filter (fun b => b.active)
    let g3 := { g2 with bullets := bs }
    let g4 := { g3 with asteroids := g3.asteroids.map (Asteroid.update cw ch dt) }
    let g5 := g4.checkCollisions cw ch supply
    g5.respawnWave cands rs

/-- game.js `Game.reset`: fresh ship at the canvas centre, empty bullet list,
score 0, lives 5, and an initial wave of 5 asteroids.  The pressed-key map is
not reset by the source.  (The initial ship radius and flags are those of the
`Ship` constructor.) -/
def Game.reset (cw ch : ℚ) (cands : ℕ → List Vector2D) (rs : ℕ → AstRand)
    (g : Game) : Option Game :=
  let ship : Ship := { position := ⟨cw / 2, ch / 2⟩, velocity := ⟨0, 0⟩, rotation := 0,
                       radius := 10, invulnerable := false, invulnerableTime := 0 }
  (Game.spawnAsteroids ship.position 5 cands rs).map (fun asts =>
    { ship := ship, bullets := [], asteroids := asts, score := 0, lives := 5,
      gameOver := false, canShoot := true, shootCooldown := 0, keys := g.keys })

/-- The keydown listener of game.js `Game.setupEventListeners`: record the
(lowercased) key as pressed, then reset the game when it is `'r'` and the
game is over. -/
def Game.keydown (cw ch : ℚ) (cands : ℕ → List Vector2D) (rs : ℕ → AstRand)
    (key : String) (g : Game) : Option Game :=
  let g1 := { g with keys := g.keys.set key true }
  if key = "r" && g1.gameOver then Game.reset cw ch cands rs g1
  else some g1

/-- A queued HUD message of the UIManager (code listed in RELEASE_NOTES.md). -/
structure UIMessage where
  text : String
  timeLeft : ℚ
  kind : String
  timestamp : ℚ
deriving DecidableEq, Repr

/-- UIManager message state: the live queue and the history log. -/
structure UIManager where
  messages : List UIMessage
  messageHistory : List UIMessage
deriving DecidableEq, Repr

/-- `this.maxMessages = 3` of the UIManager constructor. -/
def UIManager.maxMessages : ℕ := 3

/-- UIManager `updateMessages`: decrement every message's `timeLeft` by
`deltaTime` and keep only those with `timeLeft > 0`. -/
def UIManager.updateMessages (dt : ℚ) (u : UIManager) : UIManager :=
  let ticked := u.messages.map (fun m => { m with timeLeft := m.timeLeft - dt })
  { u with messages := ticked.filter (fun m => decide (0 < m.timeLeft)) }

/-- UIManager `showMessage`: push the new message (and log it), then `shift`
the front of the queue when the cap is exceeded. -/
def UIManager.showMessage (u : UIManager) (m : UIMessage) : UIManager :=
  let ms := u.messages ++ [m]
  { messages := if UIManager.maxMessages < ms.length then ms.tail else ms,
    messageHistory := u.messageHistory ++ [m] }

/-- The geometry fields of src/ui/Minimap.js used by the coordinate
conversions. -/
structure Minimap where
  x : ℚ
  y : ℚ
  scaleX : ℚ
  scaleY : ℚ
deriving DecidableEq, Repr

/-- Minimap.js `worldToMinimap`. -/
def Minimap.worldToMinimap (m : Minimap) (wx wy : ℚ) : Vector2D :=
  ⟨m.x + wx * m.scaleX, m.y + wy * m.scaleY⟩

/-- Minimap.js `minimapToWorld`. -/
def Minimap.minimapToWorld (m : Minimap) (mx my : ℚ) : Vector2D :=
  ⟨(mx - m.x) / m.scaleX, (my - m.y) / m.scaleY⟩

/-! ## Shared concrete inputs for witnesses -/

/-- A fixed choice for the random draws of an asteroid constructor. -/
def defaultRand : AstRand := ⟨0, 0, 1, 0⟩

/-- No key pressed. -/
def noKeys : Keys := ⟨false, false, false, false, false⟩

/-! ## Claims -/

/-- The on-screen bounds of a position: `0 ≤ x ≤ canvas.width` and
`0 ≤ y ≤ canvas.height`. -/
def inField (cw ch : ℚ) (p : Vector2D) : Prop :=
  0 ≤ p.x ∧ p.x ≤ cw ∧ 0 ≤ p.y ∧ p.y ≤ ch

/-- C5: for every game object, every starting position (arbitrarily far
outside the field included) and every velocity, the position after
`GameObject.wrapPosition` — and hence after every `GameObject.update`, whose
position part is `moveWrap` — satisfies `0 ≤ x ≤ canvas.width` and
`0 ≤ y ≤ canvas.height` (for nonnegative canvas dimensions). -/
theorem c5_wrap_in_field (cw ch : ℚ) (hw : 0 ≤ cw) (hh : 0 ≤ ch)
    (pos vel : Vector2D) (dt : ℚ) :
    inField cw ch (wrapPosition cw ch pos) ∧
    inField cw ch (moveWrap cw ch dt pos vel) := by
  have key : ∀ p : Vector2D, inField cw ch (wrapPosition cw ch p) := by
    intro p
    unfold wrapPosition inField
    dsimp only
    refine ⟨?_, ?_, ?_, ?_⟩ <;> split_ifs <;> linarith
  exact ⟨key pos, key (pos.add (vel.multiply dt))⟩

/-- Witness for C5 at a concrete far-outside position. -/
theorem c5_wrap_in_field_witness :
    inField 800 600 (wrapPosition 800 600 ⟨-12345, 99999⟩) ∧
    inField 800 600 (moveWrap 800 600 1 ⟨-12345, 99999⟩ ⟨3, -4⟩) :=
  c5_wrap_in_field 800 600 (by norm_num) (by norm_num) ⟨-12345, 99999⟩ ⟨3, -4⟩ 1

/-- C7: `minimapToWorld` and `worldToMinimap` are mutually inverse whenever
`scaleX` and `scaleY` are nonzero. -/
theorem c7_minimap_roundtrip (m : Minimap) (hx : m.scaleX ≠ 0) (hy : m.scaleY ≠ 0)
    (x y : ℚ) :
    m.minimapToWorld (m.worldToMinimap x y).x (m.worldToMinimap x y).y = ⟨x, y⟩ ∧
    m.worldToMinimap (m.minimapToWorld x y).x (m.minimapToWorld x y).y = ⟨x, y⟩ := by
  unfold Minimap.minimapToWorld Minimap.worldToMinimap
  constructor <;>
    · dsimp only
      rw [Vector2D.mk.injEq]
      constructor <;> field_simp

/-- Witness for C7 at a concrete minimap configuration. -/
theorem c7_minimap_roundtrip_witness :
    (Minimap.minimapToWorld ⟨580, 380, 1/4, 1/3⟩
        ((Minimap.worldToMinimap ⟨580, 380, 1/4, 1/3⟩ 5 7).x)
        ((Minimap.worldToMinimap ⟨580, 380, 1/4, 1/3⟩ 5 7).y) = ⟨5, 7⟩) ∧
    (Minimap.worldToMinimap ⟨580, 380, 1/4, 1/3⟩
        ((Minimap.minimapToWorld ⟨580, 380, 1/4, 1/3⟩ 5 7).x)
        ((Minimap.minimapToWorld ⟨580, 380, 1/4, 1/3⟩ 5 7).y) = ⟨5, 7⟩) :=
  c7_minimap_roundtrip ⟨580, 380, 1/4, 1/3⟩ (by norm_num) (by norm_num) 5 7

/-- C2: `Asteroid.split` returns the empty list for a small asteroid, and for
a large (resp. medium) asteroid exactly two new asteroids, each of size
medium (resp. small) and positioned at the parent's position. -/
theorem c2_split_two_smaller (a : Asteroid) (r1 r2 : AstRand) :
    (a.size = Size.small → a.split r1 r2 = []) ∧
    (a.size = Size.large → (a.split r1 r2).length = 2 ∧
      ∀ b ∈ a.split r1 r2, b.size = Size.medium ∧ b.position = a.position) ∧
    (a.size = Size.medium → (a.split r1 r2).length = 2 ∧
      ∀ b ∈ a.split r1 r2, b.size = Size.small ∧ b.position = a.position) := by
  refine ⟨fun h => ?_, fun h => ?_, fun h => ?_⟩ <;>
    simp [Asteroid.split, h, mkAsteroid]

/-- Witness for C2 at a concrete large asteroid. -/
theorem c2_split_two_smaller_witness :
    (Asteroid.split (mkAsteroid 10 20 Size.large defaultRand) defaultRand defaultRand).length = 2 :=
  ((c2_split_two_smaller (mkAsteroid 10 20 Size.large defaultRand) defaultRand defaultRand).2.1
    rfl).1

/-- Squared magnitude of a scaled vector. -/
theorem Vector2D.mag2_multiply (v : Vector2D) (k : ℚ) :
    (v.multiply k).mag2 = v.mag2 * (k * k) := by
  unfold Vector2D.multiply Vector2D.mag2; ring

/-- Squared magnitudes are nonnegative. -/
theorem Vector2D.mag2_nonneg (v : Vector2D) : 0 ≤ v.mag2 :=
  add_nonneg (mul_self_nonneg _) (mul_self_nonneg _)

/-- C6: after `updateMessages` every queued message has strictly positive
remaining time; a `showMessage` call on a queue within the cap keeps it within
`maxMessages`, and on a full queue evicts exactly the oldest (front) message. -/
theorem c6_message_queue (dt : ℚ) (u : UIManager) (m : UIMessage) :
    (∀ msg ∈ (u.updateMessages dt).messages, 0 < msg.timeLeft) ∧
    (u.messages.length ≤ UIManager.maxMessages →
      (u.showMessage m).messages.length ≤ UIManager.maxMessages) ∧
    (u.messages.length = UIManager.maxMessages →
      (u.showMessage m).messages = u.messages.tail ++ [m]) := by
  refine ⟨?_, ?_, ?_⟩
  · intro msg hmsg
    unfold UIManager.updateMessages at hmsg
    have := (List.mem_filter.mp hmsg).2
    exact of_decide_eq_true this
  · intro hle
    unfold UIManager.showMessage
    dsimp only
    have hlen : (u.messages ++ [m]).length = u.messages.length + 1 := by simp
    unfold UIManager.maxMessages at hle ⊢
    split_ifs with hgt
    · simp only [List.length_tail, hlen]
      omega
    · rw [hlen]
      rw [hlen] at hgt
      omega
  · intro heq
    unfold UIManager.showMessage
    dsimp only
    have hne : u.messages ≠ [] := by
      intro hnil
      rw [hnil] at heq
      simp [UIManager.maxMessages] at heq
    rw [if_pos (by simp [heq, UIManager.maxMessages]),
        List.tail_append_of_ne_nil hne]

/-- Witness for C6 on a full three-message queue. -/
theorem c6_message_queue_witness :
    (∀ msg ∈ (UIManager.updateMessages 1 ⟨[⟨"a", 3, "info", 0⟩, ⟨"b", 1, "info", 0⟩], []⟩).messages,
      0 < msg.timeLeft) ∧
    ((⟨[⟨"a", 3, "info", 0⟩, ⟨"b", 2, "info", 0⟩, ⟨"c", 1, "info", 0⟩], []⟩ :
        UIManager).messages.length = UIManager.maxMessages →
      (UIManager.showMessage ⟨[⟨"a", 3, "info", 0⟩, ⟨"b", 2, "info", 0⟩, ⟨"c", 1, "info", 0⟩], []⟩
        ⟨"d", 4, "info", 0⟩).messages
        = (⟨[⟨"a", 3, "info", 0⟩, ⟨"b", 2, "info", 0⟩, ⟨"c", 1, "info", 0⟩], []⟩ :
            UIManager).messages.tail ++ [⟨"d", 4, "info", 0⟩]) := by
  have h1 := c6_message_queue 1 ⟨[⟨"a", 3, "info", 0⟩, ⟨"b", 1, "info", 0⟩], []⟩ ⟨"d", 4, "info", 0⟩
  have h2 := c6_message_queue 1
    ⟨[⟨"a", 3, "info", 0⟩, ⟨"b", 2, "info", 0⟩, ⟨"c", 1, "info", 0⟩], []⟩ ⟨"d", 4, "info", 0⟩
  exact ⟨h1.1, h2.2.2⟩

/-- C8: every ship operation keeps the squared speed at or below
`maxSpeed² = 400²`: `thrust` clamps the post-thrust velocity whenever the
sqrt oracle (assumed to truly be the square root of the squared magnitude)
exceeds `maxSpeed`, `update` only damps the velocity by 0.99, and `respawn`
zeroes it. -/
theorem c8_speed_bounded (o : Oracles) (s : Ship) (forward : Bool) (cw ch dt x y : ℚ)
    (hsq : o.sqrt (s.thrustVel o forward dt).mag2 * o.sqrt (s.thrustVel o forward dt).mag2
            = (s.thrustVel o forward dt).mag2)
    (hnn : 0 ≤ o.sqrt (s.thrustVel o forward dt).mag2) :
    (s.thrust o forward dt).velocity.mag2 ≤ Ship.maxSpeed * Ship.maxSpeed ∧
    (s.velocity.mag2 ≤ Ship.maxSpeed * Ship.maxSpeed →
      (s.update cw ch dt).velocity.mag2 ≤ Ship.maxSpeed * Ship.maxSpeed) ∧
    (s.respawn x y).velocity.mag2 ≤ Ship.maxSpeed * Ship.maxSpeed := by
  refine ⟨?_, ?_, ?_⟩
  · unfold Ship.thrust
    dsimp only
    split_ifs with hgt
    · have hpos : (0 : ℚ) < o.sqrt (s.thrustVel o forward dt).mag2 := by
        have : (0 : ℚ) < Ship.maxSpeed := by norm_num [Ship.maxSpeed]
        linarith
      set sp := o.sqrt (Ship.thrustVel o forward dt s).mag2 with hsp
      rw [Vector2D.mag2_multiply, ← hsq]
      have hne : sp ≠ 0 := ne_of_gt hpos
      rw [div_mul_div_comm, mul_comm, div_mul_cancel₀ _ (mul_ne_zero hne hne)]
    · push_neg at hgt
      rw [← hsq]
      exact mul_self_le_mul_self hnn hgt
  · intro hle
    unfold Ship.update
    dsimp only
    have hv : 0 ≤ s.velocity.mag2 := Vector2D.mag2_nonneg s.velocity
    split_ifs <;>
      · dsimp only
        rw [Vector2D.mag2_multiply]
        nlinarith
  · unfold Ship.respawn
    dsimp only
    unfold Vector2D.mag2
    norm_num [Ship.maxSpeed]

/-- Witness for C8: a ship at speed 300 thrusting forward to raw speed 600 is
clamped back to the limit. -/
theorem c8_speed_bounded_witness :
    (Ship.thrust ⟨fun _ => 1, fun _ => 0, fun q => if q = 360000 then 600 else 0⟩ true 1
        ⟨⟨0, 0⟩, ⟨300, 0⟩, 0, 10, false, 0⟩).velocity.mag2
      ≤ Ship.maxSpeed * Ship.maxSpeed ∧
    ((⟨⟨0, 0⟩, ⟨300, 0⟩, 0, 10, false, 0⟩ : Ship).velocity.mag2
        ≤ Ship.maxSpeed * Ship.maxSpeed →
      (Ship.update 800 600 1 ⟨⟨0, 0⟩, ⟨300, 0⟩, 0, 10, false, 0⟩).velocity.mag2
        ≤ Ship.maxSpeed * Ship.maxSpeed) ∧
    (Ship.respawn 400 300 ⟨⟨0, 0⟩, ⟨300, 0⟩, 0, 10, false, 0⟩).velocity.mag2
      ≤ Ship.maxSpeed * Ship.maxSpeed :=
  c8_speed_bounded ⟨fun _ => 1, fun _ => 0, fun q => if q = 360000 then 600 else 0⟩
    ⟨⟨0, 0⟩, ⟨300, 0⟩, 0, 10, false, 0⟩ true 800 600 1 400 300
    (by norm_num [Ship.thrustVel, Ship.thrustPower, Vector2D.add, Vector2D.multiply,
      Vector2D.mag2])
    (by norm_num [Ship.thrustVel, Ship.thrustPower, Vector2D.add, Vector2D.multiply,
      Vector2D.mag2])

/-- C9: once `gameOver` holds, `Game.update` and `Game.handleInput` return
immediately with the state unchanged; the keydown listener resets the game
exactly for the R key, and for any other key only records the key press. -/
theorem c9_game_over_frozen (o : Oracles) (cw ch dt : ℚ)
    (supply : ℕ → AstRand × AstRand) (cands : ℕ → List Vector2D) (rs : ℕ → AstRand)
    (key : String) (g : Game) (hgo : g.gameOver = true) :
    Game.update o cw ch dt supply cands rs g = some g ∧
    Game.handleInput o dt g = g ∧
    Game.keydown cw ch cands rs "r" g
      = Game.reset cw ch cands rs { g with keys := g.keys.set "r" true } ∧
    (key ≠ "r" → Game.keydown cw ch cands rs key g
      = some { g with keys := g.keys.set key true }) := by
  refine ⟨?_, ?_, ?_, fun hk => ?_⟩
  · unfold Game.update; rw [hgo]; rfl
  · unfold Game.handleInput; rw [hgo]; rfl
  · unfold Game.keydown
    simp only [hgo, Bool.and_true]
    rw [if_pos (by simp)]
  · unfold Game.keydown
    rw [if_neg (by simp [hk])]

/-- Witness for C9 on a concrete game-over state. -/
theorem c9_game_over_frozen_witness :
    Game.update ⟨fun _ => 1, fun _ => 0, fun _ => 0⟩ 800 600 1 (fun _ => (defaultRand, defaultRand))
        (fun _ => []) (fun _ => defaultRand)
        ⟨⟨⟨400, 300⟩, ⟨0, 0⟩, 0, 10, false, 0⟩, [], [], 0, 0, true, true, 0, noKeys⟩
      = some ⟨⟨⟨400, 300⟩, ⟨0, 0⟩, 0, 10, false, 0⟩, [], [], 0, 0, true, true, 0, noKeys⟩ ∧
    Game.handleInput ⟨fun _ => 1, fun _ => 0, fun _ => 0⟩ 1
        ⟨⟨⟨400, 300⟩, ⟨0, 0⟩, 0, 10, false, 0⟩, [], [], 0, 0, true, true, 0, noKeys⟩
      = ⟨⟨⟨400, 300⟩, ⟨0, 0⟩, 0, 10, false, 0⟩, [], [], 0, 0, true, true, 0, noKeys⟩ := by
  have h := c9_game_over_frozen ⟨fun _ => 1, fun _ => 0, fun _ => 0⟩ 800 600 1
    (fun _ => (defaultRand, defaultRand)) (fun _ => []) (fun _ => defaultRand) "w"
    ⟨⟨⟨400, 300⟩, ⟨0, 0⟩, 0, 10, false, 0⟩, [], [], 0, 0, true, true, 0, noKeys⟩ rfl
  exact ⟨h.1, h.2.1⟩

/-- C10: while the ship is invulnerable the whole ship-collision block of
`checkCollisions` is skipped (so a ship-asteroid contact never costs a life),
and a life-losing collision that still leaves lives positive respawns the
ship at the canvas centre, invulnerable, with a 3-second timer. -/
theorem c10_invulnerability (cw ch : ℚ) (ship : Ship) (lives : ℤ) (over : Bool)
    (asts : List Asteroid) (g : Game) (supply : ℕ → AstRand × AstRand) :
    (ship.invulnerable = true →
      shipPhase cw ch ship lives over asts = (ship, lives, over)) ∧
    (g.ship.invulnerable = true →
      (Game.checkCollisions cw ch supply g).lives = g.lives ∧
      (Game.checkCollisions cw ch supply g).ship = g.ship) ∧
    (ship.invulnerable = false →
      ∀ a, asts.find? (fun a => collides ship.position ship.radius a.position a.radius)
            = some a →
        0 < lives - 1 →
          shipPhase cw ch ship lives over asts
            = (ship.respawn (cw / 2) (ch / 2), lives - 1, over) ∧
          (ship.respawn (cw / 2) (ch / 2)).position = ⟨cw / 2, ch / 2⟩ ∧
          (ship.respawn (cw / 2) (ch / 2)).invulnerable = true ∧
          (ship.respawn (cw / 2) (ch / 2)).invulnerableTime = 3) := by
  refine ⟨fun hinv => ?_, fun hinv => ?_, fun hinv a hfind hlives => ?_⟩
  · unfold shipPhase
    rw [if_pos hinv]
  · unfold Game.checkCollisions
    dsimp only
    unfold shipPhase
    rw [if_pos hinv]
    exact ⟨rfl, rfl⟩
  · unfold shipPhase
    rw [if_neg (by simp [hinv]), hfind]
    dsimp only
    rw [if_neg (by omega)]
    exact ⟨rfl, rfl, rfl, rfl⟩

/-- Witness for C10: a vulnerable ship sitting on an asteroid with 5 lives. -/
theorem c10_invulnerability_witness :
    shipPhase 800 600 ⟨⟨400, 300⟩, ⟨0, 0⟩, 0, 10, false, 0⟩ 5 false
        [mkAsteroid 400 300 Size.large defaultRand]
      = (Ship.respawn (800 / 2) (600 / 2) ⟨⟨400, 300⟩, ⟨0, 0⟩, 0, 10, false, 0⟩, 5 - 1, false) ∧
    (Ship.respawn (800 / 2) (600 / 2)
        ⟨⟨400, 300⟩, ⟨0, 0⟩, 0, 10, false, 0⟩).invulnerable = true := by
  have h := (c10_invulnerability 800 600 ⟨⟨400, 300⟩, ⟨0, 0⟩, 0, 10, false, 0⟩ 5 false
    [mkAsteroid 400 300 Size.large defaultRand]
    ⟨⟨⟨400, 300⟩, ⟨0, 0⟩, 0, 10, false, 0⟩, [], [], 0, 5, false, true, 0, noKeys⟩
    (fun _ => (defaultRand, defaultRand))).2.2 rfl
    (mkAsteroid 400 300 Size.large defaultRand)
    (by norm_num [List.find?, mkAsteroid, collides, Size.radius]) (by norm_num)
  exact ⟨h.1, h.2.2.1⟩

/-- A successful `spawnFrom` run yields exactly `fuel` asteroids, all large
and all at squared distance at least `150²` from the ship. -/
theorem spawnFrom_spec (shipPos : Vector2D) (cands : ℕ → List Vector2D) (rs : ℕ → AstRand) :
    ∀ (fuel i : ℕ) (l : List Asteroid), spawnFrom shipPos cands rs i fuel = some l →
      l.length = fuel ∧
      ∀ a ∈ l, a.size = Size.large ∧ 150 * 150 ≤ dist2 a.position shipPos := by
  intro fuel
  induction fuel with
  | zero =>
    intro i l h
    rw [spawnFrom] at h
    cases h
    exact ⟨rfl, by simp⟩
  | succ n ih =>
    intro i l h
    rw [spawnFrom] at h
    cases hp : pickSpawnPos shipPos (cands i) with
    | none => rw [hp] at h; exact absurd h (by simp)
    | some p =>
      rw [hp] at h
      cases hr : spawnFrom shipPos cands rs (i + 1) n with
      | none => rw [hr] at h; exact absurd h (by simp)
      | some rest =>
        rw [hr] at h
        cases h
        obtain ⟨hlen, hall⟩ := ih (i + 1) rest hr
        have hdist : 150 * 150 ≤ dist2 p shipPos := by
          unfold pickSpawnPos at hp
          have hfind := List.find?_some hp
          rw [Bool.not_eq_true', decide_eq_false_iff_not] at hfind
          exact not_lt.mp hfind
        refine ⟨by simp [hlen], ?_⟩
        intro a ha
        rcases List.mem_cons.mp ha with rfl | ha2
        · exact ⟨rfl, hdist⟩
        · exact hall a ha2

/-- C3: when the asteroid list is empty after an update step, the wave
respawn of `Game.update` produces `min 7 (5 + score / 1000)` asteroids — so
between 5 and 7 of them — every one large and at (squared) distance at least
`150²` from the ship. -/
theorem c3_wave_spawn (g : Game) (cands : ℕ → List Vector2D) (rs : ℕ → AstRand)
    (g' : Game) (hempty : g.asteroids = [])
    (h : Game.respawnWave cands rs g = some g') :
    g'.asteroids.length = waveCount g.score ∧
    waveCount g.score = min 7 (5 + g.score / 1000) ∧
    5 ≤ waveCount g.score ∧ waveCount g.score ≤ 7 ∧
    ∀ a ∈ g'.asteroids, a.size = Size.large ∧
      150 * 150 ≤ dist2 a.position g.ship.position := by
  have hcond : g.asteroids.isEmpty = true := by rw [hempty]; rfl
  unfold Game.respawnWave at h
  rw [if_pos hcond] at h
  cases hs : Game.spawnAsteroids g.ship.position (waveCount g.score) cands rs with
  | none => rw [hs] at h; exact absurd h (by simp)
  | some l =>
    rw [hs] at h
    rw [Option.map_some'] at h
    cases h
    obtain ⟨hlen, hall⟩ := spawnFrom_spec g.ship.position cands rs (waveCount g.score) 0 l hs
    exact ⟨hlen, rfl, le_min (by norm_num) (Nat.le_add_right 5 _), min_le_left _ _, hall⟩

/-- Concrete pre-state for the C3 witness: no asteroids left. -/
def c3Game : Game :=
  ⟨⟨⟨400, 300⟩, ⟨0, 0⟩, 0, 10, false, 0⟩, [], [], 0, 5, false, true, 0, noKeys⟩

/-- Witness for C3 on a concrete empty-field state. -/
theorem c3_wave_spawn_witness :
    ({ c3Game with
        asteroids := List.replicate 5 (mkAsteroid 600 300 Size.large defaultRand) } :
      Game).asteroids.length = waveCount c3Game.score ∧
    waveCount c3Game.score = min 7 (5 + c3Game.score / 1000) ∧
    5 ≤ waveCount c3Game.score ∧ waveCount c3Game.score ≤ 7 ∧
    ∀ a ∈ ({ c3Game with
        asteroids := List.replicate 5 (mkAsteroid 600 300 Size.large defaultRand) } :
      Game).asteroids,
      a.size = Size.large ∧ 150 * 150 ≤ dist2 a.position c3Game.ship.position :=
  c3_wave_spawn c3Game (fun _ => [⟨600, 300⟩]) (fun _ => defaultRand)
    { c3Game with
        asteroids := List.replicate 5 (mkAsteroid 600 300 Size.large defaultRand) }
    rfl
    (by norm_num [Game.respawnWave, Game.spawnAsteroids, waveCount, spawnFrom,
      pickSpawnPos, dist2, List.find?, Option.map, c3Game, List.replicate])

/-- A split has length 0 for a small parent and 2 otherwise. -/
theorem split_length (a : Asteroid) (r1 r2 : AstRand) :
    (a.split r1 r2).length = if a.size = Size.small then 0 else 2 := by
  unfold Asteroid.split
  split_ifs <;> rfl

/-- A hit reported by the downward scan really is at that index. -/
theorem scanHit_some (b : Bullet) (asts : List Asteroid) :
    ∀ (n j : ℕ) (a : Asteroid), scanHit b asts n = some (j, a) → asts[j]? = some a := by
  intro n
  induction n with
  | zero => intro j a h; exact absurd h (by simp [scanHit])
  | succ m ih =>
    intro j a h
    rw [scanHit] at h
    split at h
    next x hg =>
      split at h
      next => cases h; exact hg
      next => exact ih j a h
    next => exact ih j a h

/-- What a successful `processBullet` did: it found one asteroid, removed it,
appended its split, and scored it. -/
theorem processBullet_some_spec (r1 r2 : AstRand) (b : Bullet) (asts : List Asteroid)
    (out : List Asteroid × ℕ) (h : processBullet r1 r2 b asts = some out) :
    ∃ j a, asts[j]? = some a ∧ out.1 = asts.eraseIdx j ++ a.split r1 r2 ∧
      out.2 = scorePoints a.size ∧
      ((a.size = Size.large ∨ a.size = Size.medium) → out.1.length = asts.length + 1) ∧
      (a.size = Size.small → out.1.length + 1 = asts.length) := by
  unfold processBullet at h
  cases hs : scanHit b asts asts.length with
  | none => rw [hs] at h; exact absurd h (by simp)
  | some ja =>
    rw [hs] at h
    rw [Option.map_some'] at h
    obtain ⟨j, a⟩ := ja
    cases h
    have hget := scanHit_some b asts asts.length j a hs
    have hjlt : j < asts.length := (List.getElem?_eq_some_iff.mp hget).1
    have herase : (asts.eraseIdx j).length + 1 = asts.length :=
      List.length_eraseIdx_add_one hjlt
    refine ⟨j, a, hget, rfl, rfl, fun hlm => ?_, fun hsm => ?_⟩
    · have hsplit : (a.split r1 r2).length = 2 := by
        rw [split_length]
        rcases hlm with hl | hl <;> simp [hl]
      simp only [List.length_append, hsplit]
      omega
    · have hsplit : (a.split r1 r2).length = 0 := by
        rw [split_length, if_pos hsm]
      simp only [List.length_append, hsplit]
      omega

/-- The defining step of the bullet loop on a cons cell. -/
theorem bulletPhase_cons (supply : ℕ → AstRand × AstRand) (b : Bullet)
    (rest : List Bullet) (asts : List Asteroid) (score : ℕ) :
    bulletPhase supply (b :: rest) asts score =
      match processBullet (supply 0).1 (supply 0).2 b
          (bulletPhase (fun n => supply (n + 1)) rest asts score).2.1 with
      | none => (b :: (bulletPhase (fun n => supply (n + 1)) rest asts score).1,
                 (bulletPhase (fun n => supply (n + 1)) rest asts score).2.1,
                 (bulletPhase (fun n => supply (n + 1)) rest asts score).2.2)
      | some hit => ((bulletPhase (fun n => supply (n + 1)) rest asts score).1, hit.1,
                     (bulletPhase (fun n => supply (n + 1)) rest asts score).2.2 + hit.2) :=
  rfl

/-- Bookkeeping of one whole bullet loop: the surviving bullets are a sublist
of the originals, every removed bullet accounts for exactly one destroyed
asteroid, and the asteroid count moves by +1 per destroyed large/medium and
-1 per destroyed small. -/
theorem bulletPhase_accounting (bs : List Bullet) :
    ∀ (supply : ℕ → AstRand × AstRand) (asts : List Asteroid) (score : ℕ),
      ∃ kGrow kShrink : ℕ,
        (bulletPhase supply bs asts score).1.Sublist bs ∧
        (bulletPhase supply bs asts score).1.length + (kGrow + kShrink) = bs.length ∧
        (bulletPhase supply bs asts score).2.1.length + kShrink = asts.length + kGrow := by
  induction bs with
  | nil =>
    intro supply asts score
    exact ⟨0, 0, by simp [bulletPhase], by simp [bulletPhase], by simp [bulletPhase]⟩
  | cons b rest ih =>
    intro supply asts score
    obtain ⟨k1, k2, hsub, hblen, halen⟩ := ih (fun n => supply (n + 1)) asts score
    rw [bulletPhase_cons]
    cases hp : processBullet (supply 0).1 (supply 0).2 b
        (bulletPhase (fun n => supply (n + 1)) rest asts score).2.1 with
    | none =>
      dsimp only
      refine ⟨k1, k2, hsub.cons₂ b, ?_, halen⟩
      simp only [List.length_cons]
      omega
    | some hit =>
      dsimp only
      obtain ⟨j, a, hget, hout, hsc, hlm, hsm⟩ :=
        processBullet_some_spec (supply 0).1 (supply 0).2 b
          (bulletPhase (fun n => supply (n + 1)) rest asts score).2.1 hit hp
      cases hsz : a.size with
      | small =>
        refine ⟨k1, k2 + 1, hsub.cons b, ?_, ?_⟩
        · simp only [List.length_cons]; omega
        · have := hsm hsz
          omega
      | medium =>
        refine ⟨k1 + 1, k2, hsub.cons b, ?_, ?_⟩
        · simp only [List.length_cons]; omega
        · have := hlm (Or.inr hsz)
          omega
      | large =>
        refine ⟨k1 + 1, k2, hsub.cons b, ?_, ?_⟩
        · simp only [List.length_cons]; omega
        · have := hlm (Or.inl hsz)
          omega

/-- C4: in one `checkCollisions` call, a bullet that hits destroys exactly
one asteroid (replacing it with its split: net +1 for large/medium, net -1
for small) and is removed itself; over the whole bullet loop the surviving
bullets are a sublist of the originals, with one destruction per removed
bullet and the aggregate asteroid-count change `kGrow - kShrink`. -/
theorem c4_collision_accounting (supply : ℕ → AstRand × AstRand) (bs : List Bullet)
    (asts : List Asteroid) (score : ℕ) (r1 r2 : AstRand) (b : Bullet) :
    (∀ out : List Asteroid × ℕ, processBullet r1 r2 b asts = some out →
      ∃ j a, asts[j]? = some a ∧ out.1 = asts.eraseIdx j ++ a.split r1 r2 ∧
        ((a.size = Size.large ∨ a.size = Size.medium) → out.1.length = asts.length + 1) ∧
        (a.size = Size.small → out.1.length + 1 = asts.length)) ∧
    (∃ kGrow kShrink : ℕ,
      (bulletPhase supply bs asts score).1.Sublist bs ∧
      (bulletPhase supply bs asts score).1.length + (kGrow + kShrink) = bs.length ∧
      (bulletPhase supply bs asts score).2.1.length + kShrink = asts.length + kGrow) := by
  constructor
  · intro out h
    obtain ⟨j, a, hget, hout, _, hlm, hsm⟩ := processBullet_some_spec r1 r2 b asts out h
    exact ⟨j, a, hget, hout, hlm, hsm⟩
  · exact bulletPhase_accounting bs supply asts score

/-- A bullet sitting on a small asteroid, for the C4 witness. -/
def c4Bullet : Bullet := ⟨⟨100, 100⟩, ⟨0, 0⟩, 2, 3/2, true⟩

/-- A small asteroid at the same spot, for the C4 witness. -/
def c4SmallAst : Asteroid := mkAsteroid 100 100 Size.small defaultRand

/-- Witness for C4: the bullet destroys the lone small asteroid, netting -1. -/
theorem c4_collision_accounting_witness :
    ∃ j a, [c4SmallAst][j]? = some a ∧
      (([], 100) : List Asteroid × ℕ).1
        = [c4SmallAst].eraseIdx j ++ a.split defaultRand defaultRand ∧
      ((a.size = Size.large ∨ a.size = Size.medium) →
        (([], 100) : List Asteroid × ℕ).1.length = [c4SmallAst].length + 1) ∧
      (a.size = Size.small →
        (([], 100) : List Asteroid × ℕ).1.length + 1 = [c4SmallAst].length) :=
  (c4_collision_accounting (fun _ => (defaultRand, defaultRand)) [c4Bullet] [c4SmallAst] 0
    defaultRand defaultRand c4Bullet).1 ([], 100)
    (by norm_num [processBullet, scanHit, collides, c4Bullet, c4SmallAst, mkAsteroid,
      Size.radius, Asteroid.split, scorePoints, Option.map, List.eraseIdx])

/-- The bullet of the C1 evaluation, sitting on the asteroid it destroys. -/
def c1Bullet : Bullet := ⟨⟨100, 100⟩, ⟨0, 0⟩, 2, 3/2, true⟩

/-- The game state of the C1 evaluation, holding one bullet and the given
asteroid; the ship is far away and plays no role. -/
def c1Game (a : Asteroid) : Game :=
  ⟨⟨⟨400, 300⟩, ⟨0, 0⟩, 0, 10, false, 0⟩, [c1Bullet], [a], 0, 5, false, true, 0, noKeys⟩

/-- C1 (evaluation at the failing input): destroying a small asteroid adds
100 points and destroying a large one adds 20 — the opposite of the
documented `small/medium/large ↦ 20/50/100` mapping the claim states. -/
theorem c1_scoring_at_failing_input :
    (Game.checkCollisions 800 600 (fun _ => (defaultRand, defaultRand))
        (c1Game (mkAsteroid 100 100 Size.small defaultRand))).score = 100 ∧
    (Game.checkCollisions 800 600 (fun _ => (defaultRand, defaultRand))
        (c1Game (mkAsteroid 100 100 Size.large defaultRand))).score = 20 ∧
    scorePoints Size.small = 100 ∧ scorePoints Size.medium = 50 ∧
    scorePoints Size.large = 20 ∧ (100 ≠ 20) := by
  refine ⟨?_, ?_, rfl, rfl, rfl, by norm_num⟩ <;>
    norm_num [Game.checkCollisions, bulletPhase, processBullet, scanHit, shipPhase,
      c1Game, c1Bullet, mkAsteroid, collides, Asteroid.split, scorePoints,
      Size.radius, List.find?, Option.map, List.eraseIdx]

end AsteroidsGame
